import Mathlib

/-!
Verification of the connection-configuration assembly and credential-resolution
subsystem of the terraform-provider-postgresql repository.

The embedding covers:
* the tolerant semantic-version parser used by `validateExpectedVersion`
  (dependency `blang/semver`, functions `ParseTolerant` / `Parse`);
* the process executor `getCommandOutput` (postgresql/command.go);
* the provider schema defaults and `providerConfigure` (provider source file).

Go strings are modelled as Lean `String`, Go `int`/`uint64` as `Int`/`Nat` with
explicit bounds where the source checks them, and fallible Go functions as
`Option`/`Except` or a value paired with an optional error message.
-/

namespace TfPg

/-! ## Go string primitives used by the sources -/

/-- Go `unicode.IsSpace` restricted to the code points Go treats as Latin-1 space. -/
def isGoSpace (c : Char) : Bool :=
  c == ' ' || c == '\t' || c == '\n' || c == '\x0b' || c == '\x0c' || c == '\r' ||
  c == '\x85' || c == '\xa0'

/-- Go `strings.TrimSpace`. -/
def trimSpace (s : String) : String :=
  ⟨((s.toList.dropWhile isGoSpace).reverse.dropWhile isGoSpace).reverse⟩

/-- Go `strings.TrimPrefix s pre`: removes at most one leading occurrence. -/
def trimPrefixOnce (s pre : String) : String :=
  if pre.toList.isPrefixOf s.toList then ⟨s.toList.drop pre.toList.length⟩ else s

/-- Go `strings.Split` for a one-character separator, on character lists. -/
def splitOnChar (sep : Char) : List Char → List (List Char)
  | [] => [[]]
  | c :: rest =>
    match splitOnChar sep rest with
    | [] => [[]]
    | g :: gs => if c = sep then [] :: g :: gs else (c :: g) :: gs

/-- Go `strings.Join parts "."` for character-list pieces. -/
def joinDot : List (List Char) → List Char
  | [] => []
  | [g] => g
  | g :: gs => g ++ '.' :: joinDot gs

/-- Go `strings.SplitN s "." 3`: at most three pieces, the last keeps the rest. -/
def splitN3Dot (s : String) : List String :=
  let parts := splitOnChar '.' s.toList
  if parts.length ≤ 3 then parts.map String.mk
  else (parts.take 2).map String.mk ++ [String.mk (joinDot (parts.drop 2))]

/-- Go `strings.ContainsAny s chars`. -/
def containsAny (s chars : String) : Bool :=
  s.toList.any (fun c => chars.toList.contains c)

/-- Function `containsOnly` from blang/semver: every rune of `s` lies in `set`. -/
def containsOnly (s set : String) : Bool :=
  s.toList.all (fun c => set.toList.contains c)

/-- Function `hasLeadingZeroes` from blang/semver. -/
def hasLeadingZeroes (s : String) : Bool :=
  s.toList.length > 1 && ['0'].isPrefixOf s.toList

/-- Split a character list at the first occurrence of `c`
(`strings.IndexRune` followed by the two slicings in blang/semver `Parse`).
Returns the prefix before `c` and, when `c` occurs, the remainder after it. -/
def splitAtFirst (l : List Char) (c : Char) : List Char × Option (List Char) :=
  match (l.span (fun x => x ≠ c)).2 with
  | [] => ((l.span (fun x => x ≠ c)).1, none)
  | _ :: rest => ((l.span (fun x => x ≠ c)).1, some rest)

/-! ## blang/semver -/

def numberChars : String := "0123456789"

def alphaChars : String := "abcdefghijklmnopqrstuvwxyzABCDEFGHIJKLMNOPQRSTUVWXYZ-"

def alphanumChars : String := alphaChars ++ numberChars

/-- Go `strconv.ParseUint s 10 64`: digits only, value must fit in 64 bits. -/
def parseUint64 (s : String) : Option Nat :=
  if s.toList.isEmpty then none
  else if containsOnly s numberChars then
    let n := s.toList.foldl (fun a c => a * 10 + (c.toNat - 48)) 0
    if n < 2 ^ 64 then some n else none
  else none

/-- A pre-release identifier: numeric or alphanumeric (blang/semver `PRVersion`). -/
inductive PRVersion where
  | num (n : Nat)
  | str (s : String)
deriving DecidableEq, Repr

/-- Function `NewPRVersion` from blang/semver. -/
def newPRVersion (s : String) : Option PRVersion :=
  if s.toList.isEmpty then none
  else if containsOnly s numberChars then
    if hasLeadingZeroes s then none
    else (parseUint64 s).map PRVersion.num
  else if containsOnly s alphanumChars then some (PRVersion.str s)
  else none

/-- Structure `Version` from blang/semver. The Go zero value is `0.0.0` with empty lists. -/
structure Version where
  major : Nat := 0
  minor : Nat := 0
  patch : Nat := 0
  pre : List PRVersion := []
  build : List String := []
deriving DecidableEq, Repr

/-- Parse one numeric component of the core version: digits only, no leading
zeroes, fits in 64 bits (the checks blang/semver `Parse` performs in order). -/
def parseCoreNum (s : String) : Option Nat :=
  if ¬ containsOnly s numberChars then none
  else if hasLeadingZeroes s then none
  else parseUint64 s

/-- Check one build-metadata identifier (blang/semver `Parse`, build loop). -/
def validBuildId (s : String) : Bool :=
  ¬ s.toList.isEmpty && containsOnly s alphanumChars

/-- Sequence `newPRVersion` over the dot-separated pre-release identifiers. -/
def parsePreList (l : List String) : Option (List PRVersion) :=
  match l with
  | [] => some []
  | s :: rest =>
    match newPRVersion s, parsePreList rest with
    | some pr, some prs => some (pr :: prs)
    | _, _ => none

/-- Function `Parse` from blang/semver. -/
def semverParse (s : String) : Option Version :=
  if s.toList.isEmpty then none
  else
    let parts := splitN3Dot s
    match parts with
    | [p0, p1, p2] =>
      match parseCoreNum p0, parseCoreNum p1 with
      | some major, some minor =>
        -- split the third component at the first '+' (build metadata) …
        let afterBuild := splitAtFirst p2.toList '+'
        let build : List String :=
          match afterBuild.2 with
          | none => []
          | some b => (splitOnChar '.' b).map String.mk
        -- … then at the first '-' (pre-release)
        let afterPre := splitAtFirst afterBuild.1 '-'
        let pre : List String :=
          match afterPre.2 with
          | none => []
          | some p => (splitOnChar '.' p).map String.mk
        match parseCoreNum (String.mk afterPre.1) with
        | some patch =>
          match parsePreList pre with
          | some prs =>
            if build.all validBuildId then
              some { major := major, minor := minor, patch := patch,
                     pre := prs, build := build }
            else none
          | none => none
        | none => none
      | _, _ => none
    | _ => none

/-- Function `ParseTolerant` from blang/semver: trims space and a leading `v`, pads a short
`major` or `major.minor` form with zeroes unless it carries pre-release or
build metadata, then runs the strict parser. -/
def semverParseTolerant (s : String) : Option Version :=
  let s1 := trimPrefixOnce (trimSpace s) "v"
  let parts := splitN3Dot s1
  if parts.length < 3 then
    if containsAny (parts.getLastD "") "+-" then none
    else
      let padded := parts ++ List.replicate (3 - parts.length) "0"
      semverParse (String.mk (joinDot (padded.map String.toList)))
  else semverParse s1

example : semverParseTolerant "9.0.0" = some { major := 9, minor := 0, patch := 0 } := by
  decide

example : semverParseTolerant "v12" = some { major := 12, minor := 0, patch := 0 } := by
  decide

example : semverParseTolerant "12.3" = some { major := 12, minor := 3, patch := 0 } := by
  decide

example : semverParseTolerant "not-a-version" = none := by decide

example : semverParseTolerant "1.2.3-rc.1+build5" =
    some { major := 1, minor := 2, patch := 3,
           pre := [PRVersion.str "rc", PRVersion.num 1], build := ["build5"] } := by
  decide

/-! ## Process executor (postgresql/command.go, `getCommandOutput`)

Spawning a child process is I/O; the shallow embedding takes the outcome of
`cmd.Run` as an input: the bytes the process wrote to its stdout and stderr
buffers, and the error `cmd.Run` returned (`none` on a zero exit; `some cause`
when the process exits non-zero, cannot be started, or the context is
cancelled, where `cause` is the message of that underlying error). -/

structure ProcessResult where
  stdout : String
  stderr : String
  err : Option String
deriving Repr

/-- Go `fmt.Sprintf "%v"` applied to a `[]string` value: `[a b c]`. -/
def fmtStringSlice (args : List String) : String :=
  match args with
  | [] => "[]"
  | a :: rest => "[" ++ rest.foldl (fun acc s => acc ++ " " ++ s) a ++ "]"

/-- Function `getCommandOutput`: on success the captured stdout and no error; on any
failure of `cmd.Run` the empty string and the single diagnostic message built
by `fmt.Errorf("failed to run %s %v stdout %s stderr %s %w", ...)`. -/
def getCommandOutput (command : String) (args : List String) (run : ProcessResult) :
    String × Option String :=
  match run.err with
  | some cause =>
    ("", some ("failed to run " ++ command ++ " " ++ fmtStringSlice args ++
      " stdout " ++ run.stdout ++ " stderr " ++ run.stderr ++ " " ++ cause))
  | none => (run.stdout, none)

/-! ## Provider schema and `providerConfigure` -/

/-- One element of the `clientcert` list attribute (`cert` and `key` are
required string sub-fields). -/
structure ClientCertSpec where
  cert : String
  key : String
deriving Repr

/-- Structure `ClientCertificateConfig` from the provider sources. -/
structure ClientCertificateConfig where
  certificatePath : String
  keyPath : String
deriving DecidableEq, Repr

/-- The raw provider attribute state as it reaches `providerConfigure`:
each schema attribute is either explicitly set (`some v`, including the
zero value) or unset (`none`). The `clientcert` list attribute holds at most
one block (`MaxItems: 1`, enforced upstream). -/
structure ResourceData where
  scheme : Option String := none
  host : Option String := none
  port : Option Int := none
  database : Option String := none
  username : Option String := none
  password : Option String := none
  password_command : Option String := none
  database_username : Option String := none
  superuser : Option Bool := none
  sslmode : Option String := none
  ssl_mode : Option String := none
  clientcert : List ClientCertSpec := []
  sslrootcert : Option String := none
  connect_timeout : Option Int := none
  max_connections : Option Int := none
  expected_version : Option String := none
  jumphost : Option String := none
deriving Repr

/-- The environment variables consulted by the schema's `EnvDefaultFunc`
defaults, already converted to the attribute's type by the SDK. -/
structure Env where
  pghost : Option String := none
  pgport : Option Int := none
  pgdatabase : Option String := none
  pguser : Option String := none
  pgpassword : Option String := none
  pgsuperuser : Option Bool := none
  pgsslmode : Option String := none
  pgconnect_timeout : Option Int := none
deriving Repr

def defaultProviderMaxOpenConnections : Int := 20

def defaultExpectedPostgreSQLVersion : String := "9.0.0"

/-! Getter `d.Get` for each attribute: the explicitly set value, else the schema
default (`Default` constant, or `EnvDefaultFunc` falling back to the given
value, a missing fallback meaning the type's zero value). -/

def getScheme (d : ResourceData) : String := d.scheme.getD "postgres"

def getHost (d : ResourceData) (env : Env) : String := d.host.getD (env.pghost.getD "")

def getPort (d : ResourceData) (env : Env) : Int := d.port.getD (env.pgport.getD 5432)

def getDatabase (d : ResourceData) (env : Env) : String :=
  d.database.getD (env.pgdatabase.getD "postgres")

def getUsername (d : ResourceData) (env : Env) : String :=
  d.username.getD (env.pguser.getD "postgres")

def getPassword (d : ResourceData) (env : Env) : String :=
  d.password.getD (env.pgpassword.getD "")

def getPasswordCommand (d : ResourceData) : String := d.password_command.getD ""

def getDatabaseUsername (d : ResourceData) : String := d.database_username.getD ""

def getSuperuser (d : ResourceData) (env : Env) : Bool :=
  d.superuser.getD (env.pgsuperuser.getD true)

def getSslmodeAttr (d : ResourceData) (env : Env) : String :=
  d.sslmode.getD (env.pgsslmode.getD "")

def getSslModeDeprecated (d : ResourceData) : String := d.ssl_mode.getD ""

def getSslRootCert (d : ResourceData) : String := d.sslrootcert.getD ""

def getConnectTimeout (d : ResourceData) (env : Env) : Int :=
  d.connect_timeout.getD (env.pgconnect_timeout.getD 180)

def getMaxConnections (d : ResourceData) : Int :=
  d.max_connections.getD defaultProviderMaxOpenConnections

def getExpectedVersion (d : ResourceData) : String :=
  d.expected_version.getD defaultExpectedPostgreSQLVersion

def getJumphost (d : ResourceData) : String := d.jumphost.getD ""

/-- Function `validateExpectedVersion`, the schema `ValidateFunc` of `expected_version`:
an error for the offending value exactly when tolerant parsing fails.
Returns the `errors` slice (the `warnings` slice is always empty). -/
def validateExpectedVersion (v : String) : List String :=
  match semverParseTolerant v with
  | none => ["invalid version (\"" ++ v ++ "\")"]
  | some _ => []

/-- Modelled from the spec: `getRandomPort` is called by `providerConfigure`
but its definition is not among the provided sources. Per the spec it
deterministically derives a local port in the registered/dynamic range
1024–65535 by seeding a pseudo-random generator with the given stable seed
string, so within one process it is a pure function of the seed. The
generator is modelled as a polynomial hash of the seed reduced into the
64512-value range. -/
def getRandomPort (seed : String) : Int :=
  1024 + (((seed.toList.foldl (fun a c => (a * 31 + c.toNat) % 2 ^ 32) 7) % 64512 : Nat) : Int)

/-- The `Config` value assembled by `providerConfigure` (the connection
descriptor; the fields it copies from the raw attributes, in source order). -/
structure Config where
  scheme : String
  host : String
  port : Int
  username : String
  password : String
  databaseUsername : String
  superuser : Bool
  sslMode : String
  applicationName : String
  connectTimeoutSec : Int
  maxConns : Int
  expectedVersion : Version
  sslRootCertPath : String
  jumpHost : String
  tunneledPort : Int
  passwordCommand : String
  sslClientCert : Option ClientCertificateConfig
deriving Repr

/-- The body of `providerConfigure` up to the `Config` literal: SSL-mode
precedence (`GetOk` succeeds only on a non-zero value), tolerant version
parsing with the error discarded (`version, _ := semver.ParseTolerant(...)`,
the Go zero `Version{}` on failure), and tunnel-port derivation seeded with
`fmt.Sprintf("%s%d", host, port)`. -/
def assembledConfig (d : ResourceData) (env : Env) : Config :=
  let sslMode :=
    if getSslmodeAttr d env ≠ "" then getSslmodeAttr d env
    else if getSslModeDeprecated d ≠ "" then getSslModeDeprecated d
    else ""
  let version := (semverParseTolerant (getExpectedVersion d)).getD {}
  let host := getHost d env
  let port := getPort d env
  { scheme := getScheme d
    host := host
    port := port
    username := getUsername d env
    password := getPassword d env
    databaseUsername := getDatabaseUsername d
    superuser := getSuperuser d env
    sslMode := sslMode
    applicationName := "Terraform provider"
    connectTimeoutSec := getConnectTimeout d env
    maxConns := getMaxConnections d
    expectedVersion := version
    sslRootCertPath := getSslRootCert d
    jumpHost := getJumphost d
    tunneledPort := getRandomPort (host ++ toString port)
    passwordCommand := getPasswordCommand d
    sslClientCert :=
      match d.clientcert with
      | [] => none
      | spec :: _ => some ⟨spec.cert, spec.key⟩ }

/-- Function `providerConfigure`: every path ends in `return client, nil`, so the
result is always `.ok` of the assembled descriptor (the construction of the
database client from it is out of scope). -/
def providerConfigure (d : ResourceData) (env : Env) : Except String Config :=
  Except.ok (assembledConfig d env)

/-- The configuration-assembly pipeline as the hosting framework runs it:
the schema layer applies each attribute's `ValidateFunc` (here the only one
with logic, `validateExpectedVersion`) and aborts on any error before
`providerConfigure` is invoked. -/
def assemble (d : ResourceData) (env : Env) : Except (List String) Config :=
  match validateExpectedVersion (getExpectedVersion d) with
  | [] =>
    match providerConfigure d env with
    | Except.ok c => Except.ok c
    | Except.error e => Except.error [e]
  | errs => Except.error errs

/-- Go `strings.TrimSuffix s "\n"`. -/
def trimSuffixNewline (s : String) : String :=
  match s.toList.reverse with
  | '\n' :: rest => ⟨rest.reverse⟩
  | _ => s

/-- Modelled from the spec: the password-resolution step (§4.2 step 4) is not
among the provided sources (it lives with the client constructor, which only
receives the descriptor's `password` and `passwordCommand` strings). If the
static password is non-empty it is used verbatim and no command is run;
otherwise a non-empty password command is invoked through `getCommandOutput`
and its captured stdout, trimmed of the trailing line terminator, becomes the
password; with neither, the password stays empty. The result pairs the
resolved password (or the executor's diagnostic error, propagated unchanged)
with a flag recording whether the external command was invoked. -/
def resolvePassword (password passwordCommand : String) (run : ProcessResult) :
    Except String String × Bool :=
  if password ≠ "" then (Except.ok password, false)
  else if passwordCommand ≠ "" then
    match getCommandOutput passwordCommand [] run with
    | (out, none) => (Except.ok (trimSuffixNewline out), true)
    | (_, some e) => (Except.error e, true)
  else (Except.ok "", false)

/-! ## Helper lemmas -/

theorem string_data_append (a b : String) : (a ++ b).data = a.data ++ b.data := rfl

theorem string_mk_data (s : String) : String.mk s.data = s := rfl

theorem trimSuffixNewline_append (s : String) : trimSuffixNewline (s ++ "\n") = s := by
  unfold trimSuffixNewline
  have h : (s ++ "\n").toList = s.data ++ ['\n'] := rfl
  rw [h, List.reverse_append]
  simp

/-! ## Claims -/

/-- C1: if the `expected_version` string fails tolerant semantic-version
parsing, the assembly pipeline (schema validation followed by
`providerConfigure`) fails with an error rather than proceeding with a
defaulted version; if it parses, assembly proceeds and the descriptor holds
exactly the parsed version. -/
theorem expected_version_gates_assembly (d : ResourceData) (env : Env) :
    (semverParseTolerant (getExpectedVersion d) = none →
      (assemble d env).isOk = false) ∧
    (∀ ver, semverParseTolerant (getExpectedVersion d) = some ver →
      assemble d env = Except.ok (assembledConfig d env) ∧
      (assembledConfig d env).expectedVersion = ver) := by
  constructor
  · intro h
    simp [assemble, validateExpectedVersion, h, Except.isOk, Except.toBool]
  · intro ver h
    refine ⟨by simp [assemble, validateExpectedVersion, h, providerConfigure], ?_⟩
    simp [assembledConfig, h]

theorem expected_version_gates_assembly_witness :
    (assemble { expected_version := some "not-a-version" } {}).isOk = false ∧
    (assemble { expected_version := some "12.3" } {} =
      Except.ok (assembledConfig { expected_version := some "12.3" } {}) ∧
     (assembledConfig { expected_version := some "12.3" } {}).expectedVersion =
      { major := 12, minor := 3, patch := 0 }) :=
  ⟨(expected_version_gates_assembly { expected_version := some "not-a-version" } {}).1
      (by decide),
   (expected_version_gates_assembly { expected_version := some "12.3" } {}).2
      { major := 12, minor := 3, patch := 0 } (by decide)⟩

/-- C2 counterexample: with `sslmode` explicitly set to the empty string and
`ssl_mode` set to `"require"`, the descriptor's SSL mode is `"require"`,
not the explicitly set `sslmode` value `""` — so the descriptor's SSL mode
does not always equal `sslmode` whenever that attribute is explicitly set. -/
theorem sslmode_explicit_set_cex :
    ({ sslmode := some "", ssl_mode := some "require" } : ResourceData).sslmode
        = some "" ∧
    (assembledConfig { sslmode := some "", ssl_mode := some "require" } {}).sslMode
        = "require" ∧
    ("require" : String) ≠ "" := by
  refine ⟨rfl, rfl, by decide⟩

/-- C2 (amended): the descriptor's SSL mode equals the `sslmode` attribute
whenever its effective value is non-empty (the SDK's `GetOk` zero-value
test); otherwise it equals the deprecated `ssl_mode` attribute when that one
is non-empty — in particular, when both are set to non-empty values the
result equals `sslmode`. -/
theorem sslmode_precedence (d : ResourceData) (env : Env) :
    (getSslmodeAttr d env ≠ "" →
      (assembledConfig d env).sslMode = getSslmodeAttr d env) ∧
    (getSslmodeAttr d env = "" → getSslModeDeprecated d ≠ "" →
      (assembledConfig d env).sslMode = getSslModeDeprecated d) := by
  constructor
  · intro h
    simp [assembledConfig, h]
  · intro h1 h2
    simp [assembledConfig, h1, h2]

theorem sslmode_precedence_witness :
    (assembledConfig { sslmode := some "verify-full", ssl_mode := some "disable" } {}).sslMode
        = getSslmodeAttr { sslmode := some "verify-full", ssl_mode := some "disable" } {} ∧
    (assembledConfig { ssl_mode := some "require" } {}).sslMode
        = getSslModeDeprecated { ssl_mode := some "require" } :=
  ⟨(sslmode_precedence { sslmode := some "verify-full", ssl_mode := some "disable" } {}).1
      (by decide),
   (sslmode_precedence { ssl_mode := some "require" } {}).2 (by decide) (by decide)⟩

/-- C9: an `sslmode` attribute explicitly set to the empty string fails the
`GetOk` zero-value test and is treated as unset, so a non-empty deprecated
`ssl_mode` value is used instead. -/
theorem sslmode_empty_treated_unset (d : ResourceData) (env : Env)
    (h0 : d.sslmode = some "") (h2 : getSslModeDeprecated d ≠ "") :
    (assembledConfig d env).sslMode = getSslModeDeprecated d := by
  have h1 : getSslmodeAttr d env = "" := by simp [getSslmodeAttr, h0]
  simp [assembledConfig, h1, h2]

theorem sslmode_empty_treated_unset_witness :
    (assembledConfig { sslmode := some "", ssl_mode := some "verify-ca" } {}).sslMode
        = getSslModeDeprecated { sslmode := some "", ssl_mode := some "verify-ca" } :=
  sslmode_empty_treated_unset { sslmode := some "", ssl_mode := some "verify-ca" } {}
    rfl (by decide)

/-- C3: whenever `cmd.Run` reports a failure (non-zero exit, start failure,
or context cancellation), `getCommandOutput` returns the empty output string
together with an error message that contains the command name, the formatted
argument list, the full captured stdout, the full captured stderr, and the
underlying cause. -/
theorem getCommandOutput_failure_diagnostics (command : String) (args : List String)
    (run : ProcessResult) (cause : String) (h : run.err = some cause) :
    (getCommandOutput command args run).1 = "" ∧
    ∃ msg, (getCommandOutput command args run).2 = some msg ∧
      command.toList <:+: msg.toList ∧
      (fmtStringSlice args).toList <:+: msg.toList ∧
      run.stdout.toList <:+: msg.toList ∧
      run.stderr.toList <:+: msg.toList ∧
      cause.toList <:+: msg.toList := by
  refine ⟨by simp [getCommandOutput, h], ?_⟩
  refine ⟨"failed to run " ++ command ++ " " ++ fmtStringSlice args ++
    " stdout " ++ run.stdout ++ " stderr " ++ run.stderr ++ " " ++ cause,
    by simp [getCommandOutput, h], ?_, ?_, ?_, ?_, ?_⟩
  · exact ⟨"failed to run ".toList,
      (" " ++ fmtStringSlice args ++ " stdout " ++ run.stdout ++ " stderr " ++
        run.stderr ++ " " ++ cause).toList,
      by simp [String.toList, string_data_append]⟩
  · exact ⟨("failed to run " ++ command ++ " ").toList,
      (" stdout " ++ run.stdout ++ " stderr " ++ run.stderr ++ " " ++ cause).toList,
      by simp [String.toList, string_data_append]⟩
  · exact ⟨("failed to run " ++ command ++ " " ++ fmtStringSlice args ++ " stdout ").toList,
      (" stderr " ++ run.stderr ++ " " ++ cause).toList,
      by simp [String.toList, string_data_append]⟩
  · exact ⟨("failed to run " ++ command ++ " " ++ fmtStringSlice args ++ " stdout " ++
      run.stdout ++ " stderr ").toList,
      (" " ++ cause).toList,
      by simp [String.toList, string_data_append]⟩
  · exact ⟨("failed to run " ++ command ++ " " ++ fmtStringSlice args ++ " stdout " ++
      run.stdout ++ " stderr " ++ run.stderr ++ " ").toList, [],
      by simp [String.toList, string_data_append]⟩

theorem getCommandOutput_failure_diagnostics_witness :
    (getCommandOutput "pwcmd" ["-x"] ⟨"partial out", "boom", some "exit status 1"⟩).1 = "" ∧
    ∃ msg,
      (getCommandOutput "pwcmd" ["-x"] ⟨"partial out", "boom", some "exit status 1"⟩).2
        = some msg ∧
      "pwcmd".toList <:+: msg.toList ∧
      (fmtStringSlice ["-x"]).toList <:+: msg.toList ∧
      ("partial out" : String).toList <:+: msg.toList ∧
      ("boom" : String).toList <:+: msg.toList ∧
      ("exit status 1" : String).toList <:+: msg.toList :=
  getCommandOutput_failure_diagnostics "pwcmd" ["-x"]
    ⟨"partial out", "boom", some "exit status 1"⟩ "exit status 1" rfl

/-- C4: when only a password command is configured and it exits 0 after
writing a string followed by a trailing line terminator to stdout, the
resolved password is that string with the trailing terminator stripped. -/
theorem password_command_strips_newline (s cmd : String) (run : ProcessResult)
    (hcmd : cmd ≠ "") (herr : run.err = none) (hout : run.stdout = s ++ "\n") :
    resolvePassword "" cmd run = (Except.ok s, true) := by
  simp [resolvePassword, hcmd, getCommandOutput, herr, hout, trimSuffixNewline_append]

theorem password_command_strips_newline_witness :
    resolvePassword "" "getpw" ⟨"secret\n", "", none⟩ = (Except.ok "secret", true) :=
  password_command_strips_newline "secret" "getpw" ⟨"secret\n", "", none⟩
    (by decide) rfl rfl

/-- C5: when both a non-empty static password and a password command are
supplied, the descriptor carries the static password, password resolution
returns it verbatim, and the external command is never invoked (the
invocation flag stays `false` whatever the process would have produced). -/
theorem static_password_wins (d : ResourceData) (env : Env) (run : ProcessResult)
    (p c : String) (hp : d.password = some p) (hpne : p ≠ "")
    (hc : d.password_command = some c) :
    (assembledConfig d env).password = p ∧
    (assembledConfig d env).passwordCommand = c ∧
    resolvePassword (assembledConfig d env).password
      (assembledConfig d env).passwordCommand run = (Except.ok p, false) := by
  have hgp : getPassword d env = p := by simp [getPassword, hp]
  have hgc : getPasswordCommand d = c := by simp [getPasswordCommand, hc]
  refine ⟨by simp [assembledConfig, hgp], by simp [assembledConfig, hgc], ?_⟩
  simp [assembledConfig, hgp, hgc, resolvePassword, hpne]

theorem static_password_wins_witness :
    (assembledConfig { password := some "hunter2", password_command := some "getpw" } {}).password
        = "hunter2" ∧
    (assembledConfig { password := some "hunter2", password_command := some "getpw" } {}).passwordCommand
        = "getpw" ∧
    resolvePassword
      (assembledConfig { password := some "hunter2", password_command := some "getpw" } {}).password
      (assembledConfig { password := some "hunter2", password_command := some "getpw" } {}).passwordCommand
      ⟨"other\n", "", none⟩ = (Except.ok "hunter2", false) :=
  static_password_wins { password := some "hunter2", password_command := some "getpw" } {}
    ⟨"other\n", "", none⟩ "hunter2" "getpw" rfl (by decide) rfl

theorem getRandomPort_range (seed : String) :
    1024 ≤ getRandomPort seed ∧ getRandomPort seed ≤ 65535 := by
  unfold getRandomPort
  have h : (seed.toList.foldl (fun a c => (a * 31 + c.toNat) % 2 ^ 32) 7) % 64512 < 64512 :=
    Nat.mod_lt _ (by norm_num)
  omega

/-- C6: the derived tunnel port always lies in [1024, 65535], and two
assemblies in the same process with identical host and port values derive the
same tunnel port. -/
theorem tunnel_port_range_deterministic (d d' : ResourceData) (env env' : Env)
    (hh : getHost d env = getHost d' env') (hp : getPort d env = getPort d' env') :
    (1024 ≤ (assembledConfig d env).tunneledPort ∧
     (assembledConfig d env).tunneledPort ≤ 65535) ∧
    (assembledConfig d env).tunneledPort = (assembledConfig d' env').tunneledPort := by
  refine ⟨getRandomPort_range _, ?_⟩
  show getRandomPort (getHost d env ++ toString (getPort d env))
      = getRandomPort (getHost d' env' ++ toString (getPort d' env'))
  rw [hh, hp]

/-- Two concrete attribute states sharing host and port but differing
elsewhere, used to instantiate the tunnel-port claim. -/
def dTunnelA : ResourceData :=
  { host := some "db.internal", port := some 5432, username := some "alice" }

def dTunnelB : ResourceData :=
  { host := some "db.internal", port := some 5432 }

theorem tunnel_port_range_deterministic_witness :
    (1024 ≤ (assembledConfig dTunnelA {}).tunneledPort ∧
     (assembledConfig dTunnelA {}).tunneledPort ≤ 65535) ∧
    (assembledConfig dTunnelA {}).tunneledPort = (assembledConfig dTunnelB {}).tunneledPort :=
  tunnel_port_range_deterministic dTunnelA dTunnelB {} {} rfl rfl

/-- C7: any attribute among `max_connections`, `expected_version` and
`connect_timeout` that is not supplied (neither set in configuration nor,
for `connect_timeout`, through its environment default) takes its default
constant in the descriptor: 20 open connections, expected version 9.0.0,
connect timeout 180 seconds. -/
theorem default_constants_applied (d : ResourceData) (env : Env) :
    (d.max_connections = none → (assembledConfig d env).maxConns = 20) ∧
    (d.expected_version = none →
      (assembledConfig d env).expectedVersion = { major := 9, minor := 0, patch := 0 }) ∧
    (d.connect_timeout = none → env.pgconnect_timeout = none →
      (assembledConfig d env).connectTimeoutSec = 180) := by
  refine ⟨fun h => ?_, fun h => ?_, fun h1 h2 => ?_⟩
  · simp [assembledConfig, getMaxConnections, h, defaultProviderMaxOpenConnections]
  · have hv : getExpectedVersion d = "9.0.0" := by
      simp [getExpectedVersion, h, defaultExpectedPostgreSQLVersion]
    show (semverParseTolerant (getExpectedVersion d)).getD {} = _
    rw [hv]
    decide
  · simp [assembledConfig, getConnectTimeout, h1, h2]

theorem default_constants_applied_witness :
    (assembledConfig {} {}).maxConns = 20 ∧
    (assembledConfig {} {}).expectedVersion = { major := 9, minor := 0, patch := 0 } ∧
    (assembledConfig {} {}).connectTimeoutSec = 180 :=
  ⟨(default_constants_applied {} {}).1 rfl,
   (default_constants_applied {} {}).2.1 rfl,
   (default_constants_applied {} {}).2.2 rfl rfl⟩

/-- C8: `providerConfigure` has no failing path of its own — for every
attribute state it returns the assembled descriptor and a nil error. -/
theorem providerConfigure_never_errors (d : ResourceData) (env : Env) :
    providerConfigure d env = Except.ok (assembledConfig d env) := rfl

/-- C10: the tunnel-port seed is the plain concatenation of the host string
with the decimal port, so any two attribute states whose concatenations
coincide — even with distinct host/port pairs — derive the same tunnel
port. -/
theorem tunnel_seed_collision (d1 d2 : ResourceData) (env1 env2 : Env)
    (hseed : getHost d1 env1 ++ toString (getPort d1 env1)
           = getHost d2 env2 ++ toString (getPort d2 env2)) :
    (assembledConfig d1 env1).tunneledPort = (assembledConfig d2 env2).tunneledPort := by
  show getRandomPort (getHost d1 env1 ++ toString (getPort d1 env1))
      = getRandomPort (getHost d2 env2 ++ toString (getPort d2 env2))
  rw [hseed]

theorem tunnel_seed_collision_witness :
    (getHost { host := some "a1", port := some 1 } {},
     getPort { host := some "a1", port := some 1 } {}) ≠
      (getHost { host := some "a", port := some 11 } {},
       getPort { host := some "a", port := some 11 } {}) ∧
    (assembledConfig { host := some "a1", port := some 1 } {}).tunneledPort =
      (assembledConfig { host := some "a", port := some 11 } {}).tunneledPort :=
  ⟨by decide,
   tunnel_seed_collision { host := some "a1", port := some 1 }
     { host := some "a", port := some 11 } {} {} (by decide)⟩

end TfPg
